import Mathlib

/-!
Shallow embedding of the loan-amortization logic of the car-app repository
(Convex query handlers `getNextLoanPayment` and `getLoanDetails` in the cars
module, plus the data they consume).

Modelling conventions:
* JS numbers that hold currency amounts, rates and fractional month counts are
  modelled as exact rationals `ℚ`; epoch-millisecond timestamps are `ℤ`.
* The Convex runtime evaluates `Date` methods in UTC, so the calendar
  conversions below implement the proleptic-Gregorian civil calendar in UTC
  (`getFullYear`, `getMonth`, `setMonth` with JS month-overflow semantics).
* `Array.prototype.sort` with comparator `(a, b) => a.date - b.date` is a
  stable sort by date; any stable sort computes the same list, so it is
  modelled by `List.insertionSort` (stable) on the date order.
* `Math.round x` is `⌊x + 1/2⌋`; JS `||`-defaulting and `!x` truthiness on
  numbers treat `0` as absent.
* The authentication / access-control prologue of each handler is outside the
  claims' scope: the handlers are modelled from the first loan-field check
  onward, as functions of the car record, the fetched loan-payment rows and
  the current time.
-/

namespace CarApp

section LoanModel

-- Batteries marks the `Rat` field operations `@[irreducible]`; restore the
-- default reducibility locally so that concrete rational computations can be
-- settled by `decide` / `rfl`.
attribute [local semireducible] Rat.add Rat.mul Rat.sub Rat.inv

/-! ## UTC civil-calendar arithmetic (JS `Date` semantics) -/

/-- Milliseconds per day. -/
def msPerDay : Int := 86400000

/-- Civil date (year, month 1..12, day 1..31) of a day count relative to
1970-01-01 (Howard Hinnant's `civil_from_days`). -/
def civilFromDays (z0 : Int) : Int × Int × Int :=
  let z := z0 + 719468
  let era := Int.fdiv z 146097
  let doe := z - era * 146097
  let yoe := (doe - doe / 1460 + doe / 36524 - doe / 146096) / 365
  let doy := doe - (365 * yoe + yoe / 4 - yoe / 100)
  let mp := (5 * doy + 2) / 153
  let d := doy - (153 * mp + 2) / 5 + 1
  let m := mp + (if mp < 10 then 3 else -9)
  (yoe + era * 400 + (if m ≤ 2 then 1 else 0), m, d)

/-- Day count relative to 1970-01-01 of a civil date (Hinnant's
`days_from_civil`); `m` must be in 1..12 while `d` may lie outside the month
and rolls over, matching JS `MakeDay`. -/
def daysFromCivil (y m d : Int) : Int :=
  let y' := y - (if m ≤ 2 then 1 else 0)
  let era := Int.fdiv y' 400
  let yoe := y' - era * 400
  let doy := (153 * (m + (if m > 2 then -3 else 9)) + 2) / 5 + d - 1
  let doe := yoe * 365 + yoe / 4 - yoe / 100 + doy
  era * 146097 + doe - 719468

/-- Day number (floored) of a timestamp. -/
def dayOf (t : Int) : Int := Int.fdiv t msPerDay

/-- Milliseconds since UTC midnight of a timestamp. -/
def timeOfDay (t : Int) : Int := t - msPerDay * dayOf t

/-- JS `Date.prototype.getFullYear` in UTC. -/
def fullYear (t : Int) : Int := (civilFromDays (dayOf t)).1

/-- JS `Date.prototype.getMonth` in UTC (0-based month). -/
def monthIdx (t : Int) : Int := (civilFromDays (dayOf t)).2.1 - 1

/-- JS `Date.prototype.getDate` in UTC (day of month). -/
def dayOfMonth (t : Int) : Int := (civilFromDays (dayOf t)).2.2

/-- The `` `${d.getFullYear()}-${d.getMonth()}` `` month key both handlers use
to bucket payments, as a pair (full year, 0-based month). -/
def monthKey (t : Int) : Int × Int := (fullYear t, monthIdx t)

/-- JS `Date.prototype.setMonth` in UTC: keep the day-of-month and the time of
day, normalise the (0-based) month into the year, letting an out-of-range
day-of-month roll into the following month (JS `MakeDay`). -/
def setMonth (t newMonth : Int) : Int :=
  let y := fullYear t + Int.fdiv newMonth 12
  let m := Int.fmod newMonth 12 + 1
  daysFromCivil y m (dayOfMonth t) * msPerDay + timeOfDay t

/-- `d.setMonth(d.getMonth() + k)` — how both handlers compute the due date of
installment `k` from the purchase date. -/
def addMonths (t k : Int) : Int := setMonth t (monthIdx t + k)

/-! ## JS numeric helpers -/

/-- `Math.round`: round half toward positive infinity. -/
def jsRound (q : ℚ) : Int := Rat.floor (q + 1 / 2)

/-- `Math.round(x * 100) / 100` — round a currency amount to cents. -/
def round2 (q : ℚ) : ℚ := (jsRound (q * 100) : ℚ) / 100

/-- `1000 * 60 * 60 * 24 * 30.44`, the fixed average-month length in
milliseconds used for interest proration. -/
def monthMs : ℚ := 2630016000

/-- JS `x || 0` on an optional number (`0` is falsy, so this is `getD 0`). -/
def qOrZero : Option ℚ → ℚ
  | none => 0
  | some v => v

/-- `getD 0` on an optional timestamp. -/
def zOrZero : Option Int → Int
  | none => 0
  | some v => v

/-- JS `x || d` on an optional timestamp (`0` is falsy). -/
def zOrElse : Option Int → Int → Int
  | none, d => d
  | some v, d => if v = 0 then d else v

/-- JS truthiness of an optional number (`!x` guard): present and nonzero. -/
def qTruthy : Option ℚ → Bool
  | none => false
  | some v => decide (v ≠ 0)

/-- JS truthiness of an optional timestamp/integer field. -/
def zTruthy : Option Int → Bool
  | none => false
  | some v => decide (v ≠ 0)

/-! ## Data model -/

/-- A loan-payment expense row (`expenses` with category `loan_payment`):
`date` and `amount` are required, the principal/interest split is optional. -/
structure Payment where
  date : Int
  amount : ℚ
  principalAmount : Option ℚ := none
  interestAmount : Option ℚ := none
deriving DecidableEq, Repr

/-- The loan-relevant fields of a `cars` row; in the Convex schema every one
of them is optional. -/
structure Car where
  loanAmount : Option ℚ := none
  loanTerm : Option Int := none
  interestRate : Option ℚ := none
  monthlyPayment : Option ℚ := none
  purchaseDate : Option Int := none
  loanBank : Option String := none
deriving DecidableEq, Repr

/-- The date order used by `loanPayments.sort((a, b) => a.date - b.date)`. -/
def dateLE (a b : Payment) : Prop := a.date ≤ b.date

instance : DecidableRel dateLE := fun a b => (inferInstance : Decidable (a.date ≤ b.date))

/-- The strict date order on payments. -/
def dateLT (a b : Payment) : Prop := a.date < b.date

instance : IsTotal Payment dateLE := ⟨fun a b => le_total a.date b.date⟩

instance : IsTrans Payment dateLE := ⟨fun _ _ _ h1 h2 => le_trans h1 h2⟩

instance : IsAntisymm Payment dateLT := ⟨fun _ _ h1 h2 => (lt_asymm h1 h2).elim⟩

/-- JS `Array.prototype.sort` by the `date` comparator: a stable sort by
date; every stable sort by date yields the same list, so insertion sort
models it exactly. -/
def sortByDate (ps : List Payment) : List Payment := List.insertionSort dateLE ps

/-! ## The balance projector (lines 605–612 resp. 740–747 of the handlers) -/

/-- One iteration of `getNextLoanPayment`'s payment loop: split a payment
into interest and principal portions and reduce the balance, clamping at 0.
State is (currentBalance, lastPaymentDate). -/
def gnlpStep (monthlyInterestRate : ℚ) (st : ℚ × Int) (payment : Payment) : ℚ × Int :=
  let monthsElapsed := max 0 (((payment.date - st.2 : Int) : ℚ) / monthMs)
  let interestAccrued := st.1 * monthlyInterestRate * monthsElapsed
  let interestPortion := min payment.amount interestAccrued
  let principalPortion := max 0 (payment.amount - interestPortion)
  (max 0 (st.1 - principalPortion), payment.date)

/-- `getNextLoanPayment`'s payment loop over a (sorted) payment list. -/
def gnlpProject (balance : ℚ) (monthlyInterestRate : ℚ) (anchor : Int)
    (ps : List Payment) : ℚ × Int :=
  ps.foldl (gnlpStep monthlyInterestRate) (balance, anchor)

/-- One iteration of `getLoanDetails`' payment loop (textually identical to
`gnlpStep` in the source; kept separate because the two handlers duplicate
the code). -/
def gldStep (monthlyInterestRate : ℚ) (st : ℚ × Int) (payment : Payment) : ℚ × Int :=
  let monthsElapsed := max 0 (((payment.date - st.2 : Int) : ℚ) / monthMs)
  let interestAccrued := st.1 * monthlyInterestRate * monthsElapsed
  let interestPortion := min payment.amount interestAccrued
  let principalPortion := max 0 (payment.amount - interestPortion)
  (max 0 (st.1 - principalPortion), payment.date)

/-- `getLoanDetails`' payment loop over a (sorted) payment list. -/
def gldProject (balance : ℚ) (monthlyInterestRate : ℚ) (anchor : Int)
    (ps : List Payment) : ℚ × Int :=
  ps.foldl (gldStep monthlyInterestRate) (balance, anchor)

/-- Modelled from the spec (§4.1 Algorithm and claim C1): the running balance
obtained by processing the payments in ascending date order starting from the
opening balance and the anchor date, with
`monthsElapsed = max(0, (date − lastDate) / (30.44 days in ms))`,
`interestAccrued = balance × rate × monthsElapsed`,
`interestPortion = min(amount, interestAccrued)`,
`principalPortion = max(0, amount − interestPortion)`,
`balance = max(0, balance − principalPortion)`. -/
def specProjectedBalance (openingBalance monthlyInterestRate : ℚ) (anchorDate : Int)
    (ps : List Payment) : ℚ :=
  ((sortByDate ps).foldl
    (fun st payment =>
      (max 0 (st.1 - max 0 (payment.amount -
         min payment.amount
           (st.1 * monthlyInterestRate *
             max 0 (((payment.date - st.2 : Int) : ℚ) / monthMs)))),
       payment.date))
    (openingBalance, anchorDate)).1

/-! ## The next-due-installment search (lines 635–646 resp. 789–800) -/

/-- The `` `${y}-${m}` `` keys of the months that contain a payment. -/
def paidKeys (ps : List Payment) : List (Int × Int) :=
  ps.map (fun p => monthKey p.date)

/-- The `for (monthOffset = 1; monthOffset <= loanTerm; monthOffset++)` search:
starting at offset `k` with `n` offsets left, return the first installment
offset whose due-date month has no payment, together with its due date. -/
def findFirstUnpaid (purchase : Int) (keys : List (Int × Int)) :
    Nat → Nat → Option (Nat × Int)
  | _, 0 => none
  | k, n + 1 =>
    let due := addMonths purchase (k : Int)
    if monthKey due ∈ keys then findFirstUnpaid purchase keys (k + 1) n
    else some (k, due)

/-! ## `getNextLoanPayment` -/

/-- The non-null, not-paid-off payload of `getNextLoanPayment`. -/
structure GnlpDue where
  nextDueDate : Int
  monthlyPayment : ℚ
  amountDue : ℚ
  paidThisPeriod : ℚ
  remainingBalance : ℚ
  paymentNumber : Nat
  isOverdue : Bool
deriving DecidableEq, Repr

/-- Result of `getNextLoanPayment` after the null check: either
`{ isPaidOff: true }` or the full next-payment record. -/
inductive GnlpResult where
  | paidOff
  | due (d : GnlpDue)
deriving DecidableEq, Repr

/-- Body of `getNextLoanPayment` after the loan-info guard (source lines
590–687), as a function of the car record, the fetched loan payments and the
current time. -/
def gnlpCore (car : Car) (ps : List Payment) (now : Int) : GnlpResult :=
  let sorted := sortByDate ps
  let monthlyInterestRate := qOrZero car.interestRate / 100 / 12
  let currentBalance :=
    (gnlpProject (qOrZero car.loanAmount) monthlyInterestRate
      (zOrZero car.purchaseDate) sorted).1
  let remainingBalance := round2 currentBalance
  if remainingBalance ≤ 1 / 100 then .paidOff
  else
    match findFirstUnpaid (zOrZero car.purchaseDate) (paidKeys sorted) 1
        (zOrZero car.loanTerm).toNat with
    | none => .paidOff
    | some (k, dueDate) =>
      let currentPeriodStart := setMonth dueDate (monthIdx dueDate - 1)
      let paidThisPeriod :=
        ((sorted.filter (fun p =>
            decide (currentPeriodStart < p.date ∧ p.date ≤ dueDate))).map
          Payment.amount).sum
      let amountDue :=
        if remainingBalance < qOrZero car.monthlyPayment then
          max 0 (remainingBalance - paidThisPeriod)
        else
          max 0 (qOrZero car.monthlyPayment - paidThisPeriod)
      .due
        { nextDueDate := dueDate
          monthlyPayment := qOrZero car.monthlyPayment
          amountDue := round2 amountDue
          paidThisPeriod := round2 paidThisPeriod
          remainingBalance := remainingBalance
          paymentNumber := k
          isOverdue := decide (now > dueDate) }

/-- `getNextLoanPayment` for an authenticated caller with access to the car:
`null` when the car lacks a truthy `loanAmount`, `monthlyPayment`,
`purchaseDate` or `loanTerm` (source line 586), otherwise the computed
result. -/
def getNextLoanPayment (car : Car) (ps : List Payment) (now : Int) :
    Option GnlpResult :=
  if qTruthy car.loanAmount && qTruthy car.monthlyPayment &&
      zTruthy car.purchaseDate && zTruthy car.loanTerm then
    some (gnlpCore car ps now)
  else
    none

/-! ## `getLoanDetails` -/

/-- One entry of the `payments` list returned by `getLoanDetails`. -/
structure PaymentOut where
  date : Int
  amount : ℚ
  principalAmount : ℚ
  interestAmount : ℚ
deriving DecidableEq, Repr

/-- The non-null result of `getLoanDetails`. -/
structure LoanDetails where
  originalLoanAmount : ℚ
  loanTerm : Int
  interestRate : ℚ
  monthlyPayment : ℚ
  loanBank : Option String
  totalPaid : ℚ
  totalPrincipal : ℚ
  totalInterest : ℚ
  remainingBalance : ℚ
  isPaidOff : Bool
  monthsEarly : Int
  nextPaymentDate : Option Int
  isOverdue : Bool
  payments : List PaymentOut
deriving DecidableEq, Repr

/-- Body of `getLoanDetails` after the loan-info guard (source lines
720–825), as a function of the car record, the fetched loan payments and the
current time. -/
def gldCore (car : Car) (ps : List Payment) (now : Int) : LoanDetails :=
  let sorted := sortByDate ps
  let totalPaid := (sorted.map Payment.amount).sum
  let totalPrincipal := (sorted.map (fun p => qOrZero p.principalAmount)).sum
  let totalInterest := (sorted.map (fun p => qOrZero p.interestAmount)).sum
  let monthlyInterestRate := qOrZero car.interestRate / 100 / 12
  let st := gldProject (qOrZero car.loanAmount) monthlyInterestRate
    (zOrElse car.purchaseDate now) sorted
  let monthsElapsed := max 0 (((now - st.2 : Int) : ℚ) / monthMs)
  let accruedInterestSinceLastPayment := st.1 * monthlyInterestRate * monthsElapsed
  let remainingBalance := round2 (st.1 + accruedInterestSinceLastPayment)
  let isPaidOff := decide (remainingBalance ≤ 1 / 100)
  let monthsEarly :=
    if isPaidOff && zTruthy car.purchaseDate then
      let lastPaymentDate :=
        match sorted.getLast? with
        | some p => p.date
        | none => now
      let scheduledEndDate := addMonths (zOrZero car.purchaseDate) (zOrZero car.loanTerm)
      if lastPaymentDate < scheduledEndDate then
        max 0 ((fullYear scheduledEndDate - fullYear lastPaymentDate) * 12 +
          (monthIdx scheduledEndDate - monthIdx lastPaymentDate))
      else 0
    else 0
  let nextAndOverdue : Option Int × Bool :=
    if !isPaidOff && zTruthy car.purchaseDate then
      match findFirstUnpaid (zOrZero car.purchaseDate) (paidKeys sorted) 1
          (zOrZero car.loanTerm).toNat with
      | some (_, dueDate) => (some dueDate, decide (now > dueDate))
      | none => (none, false)
    else (none, false)
  { originalLoanAmount := qOrZero car.loanAmount
    loanTerm := zOrZero car.loanTerm
    interestRate := qOrZero car.interestRate
    monthlyPayment := qOrZero car.monthlyPayment
    loanBank := car.loanBank
    totalPaid := round2 totalPaid
    totalPrincipal := round2 totalPrincipal
    totalInterest := round2 totalInterest
    remainingBalance := max 0 remainingBalance
    isPaidOff := isPaidOff
    monthsEarly := monthsEarly
    nextPaymentDate := nextAndOverdue.1
    isOverdue := nextAndOverdue.2
    payments := sorted.map (fun p =>
      { date := p.date
        amount := round2 p.amount
        principalAmount := round2 (qOrZero p.principalAmount)
        interestAmount := round2 (qOrZero p.interestAmount) }) }

/-- `getLoanDetails` for an authenticated caller with access to the car:
`null` when the car lacks a truthy `loanAmount`, `monthlyPayment` or
`loanTerm` (source line 716), otherwise the computed result. -/
def getLoanDetails (car : Car) (ps : List Payment) (now : Int) :
    Option LoanDetails :=
  if qTruthy car.loanAmount && qTruthy car.monthlyPayment && zTruthy car.loanTerm then
    some (gldCore car ps now)
  else
    none

/-! ## Small accessors used to state the claims -/

/-- The `remainingBalance` field of a `getNextLoanPayment` result, when the
result is the next-payment record. -/
def gnlpRemainingBalance : Option GnlpResult → Option ℚ
  | some (.due d) => some d.remainingBalance
  | _ => none

/-- The `paymentNumber` field of a `getNextLoanPayment` result, when the
result is the next-payment record. -/
def gnlpPaymentNumber : Option GnlpResult → Option Nat
  | some (.due d) => some d.paymentNumber
  | _ => none

/-- Modelled from the spec (§4.2, claim C6): the sum of the recorded payments
that fall in the period `(dueDate − 1 calendar month, dueDate]`. -/
def paidInPeriod (ps : List Payment) (dueDate : Int) : ℚ :=
  let currentPeriodStart := setMonth dueDate (monthIdx dueDate - 1)
  ((ps.filter (fun p =>
      decide (currentPeriodStart < p.date ∧ p.date ≤ dueDate))).map
    Payment.amount).sum

/-! ## Concrete fixtures used by witnesses and counterexamples -/

/-- 2020-01-15T00:00Z (day 18276 of the epoch). -/
def tJan15 : Int := 18276 * 86400000

/-- A car with a standard loan: $20000 over 60 months at 6 % with a $400
monthly payment, bought 2020-01-15. -/
def carStd : Car where
  loanAmount := some 20000
  loanTerm := some 60
  interestRate := some 6
  monthlyPayment := some 400
  purchaseDate := some tJan15

/-- A $400 payment dated 2020-02-15 (31 days after purchase). -/
def payFeb : Payment := { date := tJan15 + 31 * 86400000, amount := 400 }

/-- The standard car but with no recorded purchase date. -/
def carNoPurchase : Car where
  loanAmount := some 20000
  loanTerm := some 60
  interestRate := some 6
  monthlyPayment := some 400

/-- A one-month loan, with a single small payment inside the only
installment's month bucket. -/
def carOneMonth : Car where
  loanAmount := some 1000
  loanTerm := some 1
  interestRate := some 0
  monthlyPayment := some 100
  purchaseDate := some tJan15

/-- A $1 payment dated 2020-02-20. -/
def payTinyFeb : Payment := { date := 18312 * 86400000, amount := 1 }

/-- A 12-month interest-free loan on a car bought 2020-01-15. -/
def carTwelve : Car where
  loanAmount := some 10000
  loanTerm := some 12
  interestRate := some 0
  monthlyPayment := some 300
  purchaseDate := some tJan15

/-- Payments covering the first three installment buckets, listed with the
March payment recorded before the February one. -/
def psScrambled : List Payment :=
  [{ date := 18326 * 86400000, amount := 300 },
   { date := 18312 * 86400000, amount := 300 },
   { date := 18362 * 86400000, amount := 300 }]

/-- A payment of exactly the prior balance: $20000 one average month after
purchase of the standard car. -/
def payFullBalance : Payment := { date := tJan15 + 2630016000, amount := 20000 }

/-- The payoff payment for the standard car with no prior history:
$20100 = $20000 plus one month of interest, one average month after
purchase. -/
def payFullPlusInterest : Payment :=
  { date := tJan15 + 2630016000, amount := 20100 }

/-- A 12-month loan at a 60 % nominal annual rate (5 % per month), used to
make the interest split order-sensitive. -/
def carHighRate : Car where
  loanAmount := some 1000
  loanTerm := some 12
  interestRate := some 60
  monthlyPayment := some 50
  purchaseDate := some tJan15

/-- A $30 payment one average month after purchase. -/
def p30 : Payment := { date := tJan15 + 2630016000, amount := 30 }

/-- A $100 payment with exactly the same date as `p30`. -/
def p100 : Payment := { date := tJan15 + 2630016000, amount := 100 }

/-- 2023-01-31T00:00Z (day 19388 of the epoch). -/
def tJan31 : Int := 19388 * 86400000

/-- An interest-free 12-month loan on a car bought on a month's 31st day. -/
def carRollover : Car where
  loanAmount := some 10000
  loanTerm := some 12
  interestRate := some 0
  monthlyPayment := some 300
  purchaseDate := some tJan31

/-- A single $300 payment dated 2023-03-10. -/
def payMar2023 : Payment := { date := 19426 * 86400000, amount := 300 }

/-! ## Sanity checks of the date and rounding models -/

/-- The civil-calendar conversions agree with known dates, and `setMonth`
rolls an out-of-range day over into the next month as JS does
(2023-01-31 plus one month is 2023-03-03, plus two months is 2023-03-31). -/
theorem calendar_model_checks :
    civilFromDays 0 = (1970, 1, 1) ∧
    civilFromDays 19388 = (2023, 1, 31) ∧
    daysFromCivil 2023 1 31 = 19388 ∧
    addMonths (19388 * 86400000) 1 = 19419 * 86400000 ∧
    civilFromDays 19419 = (2023, 3, 3) ∧
    addMonths (19388 * 86400000) 2 = 19447 * 86400000 ∧
    civilFromDays 19447 = (2023, 3, 31) := by
  refine ⟨by decide, by decide, by decide, by decide, by decide, by decide,
    by decide⟩

/-- `Math.round` rounds half toward positive infinity and `round2` keeps two
decimals. -/
theorem rounding_model_checks :
    round2 (2012 / 1000) = 201 / 100 ∧ jsRound (5 / 2) = 3 ∧
    jsRound (-5 / 2) = -2 := by
  refine ⟨by decide, by decide, by decide⟩

/-- `jsRound` is the floor of `q + 1/2`, stated with `Int.floor` so Mathlib's
floor lemmas apply. -/
theorem jsRound_eq_floor (q : ℚ) : jsRound q = ⌊q + 1 / 2⌋ := by
  rw [jsRound, Rat.floor_def, Rat.floor_def']

/-! ## Helper lemmas -/

/-- The two handlers' loop bodies are the same function (the source
duplicates the block verbatim). -/
theorem gldStep_eq_gnlpStep : gldStep = gnlpStep := rfl

/-- When the purchase date is truthy, `car.purchaseDate || Date.now()`
is the purchase date. -/
theorem zOrElse_of_truthy {o : Option Int} (h : zTruthy o = true) (d : Int) :
    zOrElse o d = zOrZero o := by
  rcases o with _ | v
  · simp [zTruthy] at h
  · simp only [zTruthy, decide_eq_true_eq] at h
    simp [zOrElse, zOrZero, h]

/-- Truthiness agrees with presence for an optional amount that is positive
when present. -/
theorem qTruthy_iff_isSome {o : Option ℚ} (h : o = none ∨ 0 < qOrZero o) :
    qTruthy o = true ↔ o ≠ none := by
  rcases o with _ | v
  · simp [qTruthy]
  · rcases h with h | h
    · exact absurd h (by simp)
    · simp only [qOrZero] at h
      simp [qTruthy, ne_of_gt h]

/-- Truthiness agrees with presence for an optional integer that is positive
when present. -/
theorem zTruthy_iff_isSome {o : Option Int} (h : o = none ∨ 0 < zOrZero o) :
    zTruthy o = true ↔ o ≠ none := by
  rcases o with _ | v
  · simp [zTruthy]
  · rcases h with h | h
    · exact absurd h (by simp)
    · simp only [zOrZero] at h
      simp [zTruthy, ne_of_gt h]

/-- One projection step keeps the balance in `[0, previous balance]`. -/
theorem gnlpStep_bounds (r : ℚ) (bal : ℚ) (last : Int) (p : Payment)
    (hbal : 0 ≤ bal) :
    0 ≤ (gnlpStep r (bal, last) p).1 ∧ (gnlpStep r (bal, last) p).1 ≤ bal := by
  unfold gnlpStep
  refine ⟨le_max_left 0 _, max_le hbal (sub_le_self bal (le_max_left 0 _))⟩

/-- The projection loop keeps the balance in `[0, opening balance]`. -/
theorem gnlpFold_bounds (r : ℚ) :
    ∀ (ps : List Payment) (st : ℚ × Int), 0 ≤ st.1 →
      0 ≤ (ps.foldl (gnlpStep r) st).1 ∧ (ps.foldl (gnlpStep r) st).1 ≤ st.1 := by
  intro ps
  induction ps with
  | nil => exact fun st h => ⟨h, le_rfl⟩
  | cons p ps ih =>
    intro st h
    have hstep := gnlpStep_bounds r st.1 st.2 p h
    have hrec := ih (gnlpStep r st p) hstep.1
    exact ⟨hrec.1, hrec.2.trans hstep.2⟩

/-! ## Claims -/

/-- C1: for every car with truthy loan fields and every payment list, both
`getNextLoanPayment` and `getLoanDetails` compute the running balance by
processing the payments in ascending date order, starting from
`currentBalance = loanAmount`, `lastDate = purchaseDate` and
`monthlyInterestRate = (interestRate || 0)/100/12`, and applying the fixed
30.44-day-month proration recurrence of the spec (here
`specProjectedBalance`) — not calendar-month arithmetic. -/
theorem c1_both_loops_follow_spec_recurrence (car : Car) (ps : List Payment)
    (now : Int) (hpd : zTruthy car.purchaseDate = true) :
    (gnlpProject (qOrZero car.loanAmount) (qOrZero car.interestRate / 100 / 12)
        (zOrZero car.purchaseDate) (sortByDate ps)).1 =
      specProjectedBalance (qOrZero car.loanAmount)
        (qOrZero car.interestRate / 100 / 12) (zOrZero car.purchaseDate) ps ∧
    (gldProject (qOrZero car.loanAmount) (qOrZero car.interestRate / 100 / 12)
        (zOrElse car.purchaseDate now) (sortByDate ps)).1 =
      specProjectedBalance (qOrZero car.loanAmount)
        (qOrZero car.interestRate / 100 / 12) (zOrZero car.purchaseDate) ps := by
  rw [zOrElse_of_truthy hpd]
  exact ⟨rfl, rfl⟩

/-- Witness for C1 at the standard fixture. -/
theorem c1_witness :
    zTruthy carStd.purchaseDate = true ∧
    ((gnlpProject (qOrZero carStd.loanAmount)
        (qOrZero carStd.interestRate / 100 / 12) (zOrZero carStd.purchaseDate)
        (sortByDate [payFeb])).1 =
      specProjectedBalance (qOrZero carStd.loanAmount)
        (qOrZero carStd.interestRate / 100 / 12) (zOrZero carStd.purchaseDate)
        [payFeb] ∧
    (gldProject (qOrZero carStd.loanAmount)
        (qOrZero carStd.interestRate / 100 / 12)
        (zOrElse carStd.purchaseDate (tJan15 + 40 * 86400000))
        (sortByDate [payFeb])).1 =
      specProjectedBalance (qOrZero carStd.loanAmount)
        (qOrZero carStd.interestRate / 100 / 12) (zOrZero carStd.purchaseDate)
        [payFeb]) :=
  ⟨by decide,
   c1_both_loops_follow_spec_recurrence carStd [payFeb]
     (tJan15 + 40 * 86400000) (by decide)⟩

/-- C2: for an authenticated, access-granted call on a car whose present loan
fields are positive (the data model's well-formedness), `getNextLoanPayment`
returns `null` exactly when `loanAmount`, `monthlyPayment`, `loanTerm` or
`purchaseDate` is missing, and `getLoanDetails` returns `null` exactly when
`loanAmount`, `monthlyPayment` or `loanTerm` is missing; in every other case
each returns a non-null result (the embedded arithmetic is a total
function). -/
theorem c2_null_iff_missing_loan_fields (car : Car) (ps : List Payment)
    (now : Int)
    (hla : car.loanAmount = none ∨ 0 < qOrZero car.loanAmount)
    (hmp : car.monthlyPayment = none ∨ 0 < qOrZero car.monthlyPayment)
    (hlt : car.loanTerm = none ∨ 0 < zOrZero car.loanTerm)
    (hpd : car.purchaseDate = none ∨ 0 < zOrZero car.purchaseDate) :
    (getNextLoanPayment car ps now = none ↔
      (car.loanAmount = none ∨ car.monthlyPayment = none ∨
        car.loanTerm = none ∨ car.purchaseDate = none)) ∧
    (getLoanDetails car ps now = none ↔
      (car.loanAmount = none ∨ car.monthlyPayment = none ∨
        car.loanTerm = none)) := by
  have ha := qTruthy_iff_isSome hla
  have hm := qTruthy_iff_isSome hmp
  have ht := zTruthy_iff_isSome hlt
  have hp := zTruthy_iff_isSome hpd
  constructor
  · unfold getNextLoanPayment
    split
    · next hg =>
      simp only [Bool.and_eq_true] at hg
      simp only [reduceCtorEq, false_iff]
      push_neg
      exact ⟨ha.mp hg.1.1.1, hm.mp hg.1.1.2, ht.mp hg.2, hp.mp hg.1.2⟩
    · next hg =>
      simp only [Bool.and_eq_true, not_and] at hg
      simp only [true_iff]
      by_cases h1 : car.loanAmount = none
      · exact Or.inl h1
      by_cases h2 : car.monthlyPayment = none
      · exact Or.inr (Or.inl h2)
      by_cases h3 : car.loanTerm = none
      · exact Or.inr (Or.inr (Or.inl h3))
      by_cases h4 : car.purchaseDate = none
      · exact Or.inr (Or.inr (Or.inr h4))
      exact (hg ⟨⟨ha.mpr h1, hm.mpr h2⟩, hp.mpr h4⟩ (ht.mpr h3)).elim
  · unfold getLoanDetails
    split
    · next hg =>
      simp only [Bool.and_eq_true] at hg
      simp only [reduceCtorEq, false_iff]
      push_neg
      exact ⟨ha.mp hg.1.1, hm.mp hg.1.2, ht.mp hg.2⟩
    · next hg =>
      simp only [Bool.and_eq_true, not_and] at hg
      simp only [true_iff]
      by_cases h1 : car.loanAmount = none
      · exact Or.inl h1
      by_cases h2 : car.monthlyPayment = none
      · exact Or.inr (Or.inl h2)
      by_cases h3 : car.loanTerm = none
      · exact Or.inr (Or.inr h3)
      exact (hg ⟨ha.mpr h1, hm.mpr h2⟩ (ht.mpr h3)).elim

/-- Witness for C2: a car missing only `purchaseDate`, so the two handlers
disagree about `null`. -/
theorem c2_witness :
    (carNoPurchase.loanAmount = none ∨ 0 < qOrZero carNoPurchase.loanAmount) ∧
    (getNextLoanPayment carNoPurchase [payFeb] tJan15 = none ↔
      (carNoPurchase.loanAmount = none ∨ carNoPurchase.monthlyPayment = none ∨
        carNoPurchase.loanTerm = none ∨ carNoPurchase.purchaseDate = none)) :=
  ⟨Or.inr (by decide),
   (c2_null_iff_missing_loan_fields carNoPurchase [payFeb] tJan15
     (Or.inr (by decide)) (Or.inr (by decide)) (Or.inr (by decide))
     (Or.inl rfl)).1⟩

/-- C3: the projected balance is a preserved invariant in both handlers'
loops: each applied payment leaves the balance nonnegative and no larger
than the balance before it, and hence the loop's final balance lies in
`[0, opening balance]`. -/
theorem c3_balance_nonneg_and_nonincreasing (r bal : ℚ) (last : Int)
    (p : Payment) (b0 : ℚ) (a : Int) (ps : List Payment)
    (hbal : 0 ≤ bal) (hb0 : 0 ≤ b0) :
    (0 ≤ (gnlpStep r (bal, last) p).1 ∧ (gnlpStep r (bal, last) p).1 ≤ bal) ∧
    (0 ≤ (gldStep r (bal, last) p).1 ∧ (gldStep r (bal, last) p).1 ≤ bal) ∧
    (0 ≤ (gnlpProject b0 r a ps).1 ∧ (gnlpProject b0 r a ps).1 ≤ b0) ∧
    (0 ≤ (gldProject b0 r a ps).1 ∧ (gldProject b0 r a ps).1 ≤ b0) := by
  have hstep := gnlpStep_bounds r bal last p hbal
  have hfold := gnlpFold_bounds r ps (b0, a) hb0
  exact ⟨hstep, hstep, hfold, hfold⟩

/-- Witness for C3 at the standard fixture. -/
theorem c3_witness :
    (0 : ℚ) ≤ 19000 ∧ (0 : ℚ) ≤ 20000 ∧
    ((0 ≤ (gnlpStep (1 / 200) (19000, tJan15) payFeb).1 ∧
        (gnlpStep (1 / 200) (19000, tJan15) payFeb).1 ≤ 19000) ∧
      (0 ≤ (gldStep (1 / 200) (19000, tJan15) payFeb).1 ∧
        (gldStep (1 / 200) (19000, tJan15) payFeb).1 ≤ 19000) ∧
      (0 ≤ (gnlpProject 20000 (1 / 200) tJan15 [payFeb]).1 ∧
        (gnlpProject 20000 (1 / 200) tJan15 [payFeb]).1 ≤ 20000) ∧
      (0 ≤ (gldProject 20000 (1 / 200) tJan15 [payFeb]).1 ∧
        (gldProject 20000 (1 / 200) tJan15 [payFeb]).1 ≤ 20000)) :=
  ⟨by decide, by decide,
   c3_balance_nonneg_and_nonincreasing (1 / 200) 19000 tJan15 payFeb 20000
     tJan15 [payFeb] (by decide) (by decide)⟩

/-- Month-bucket membership survives the handler-internal sort. -/
theorem mem_paidKeys_sortByDate (x : Int × Int) (ps : List Payment) :
    x ∈ paidKeys (sortByDate ps) ↔ x ∈ paidKeys ps :=
  ((List.perm_insertionSort dateLE ps).map _).mem_iff

/-- If every offset in the search window has its month bucket covered, the
next-due search finds nothing. -/
theorem findFirstUnpaid_eq_none (purchase : Int) (keys : List (Int × Int)) :
    ∀ (n k : Nat),
      (∀ j : Nat, k ≤ j → j < k + n →
        monthKey (addMonths purchase (j : Int)) ∈ keys) →
      findFirstUnpaid purchase keys k n = none := by
  intro n
  induction n with
  | zero => intro k _; rfl
  | succ n ih =>
    intro k h
    unfold findFirstUnpaid
    simp only []
    rw [if_pos (h k le_rfl (by omega))]
    exact ih (k + 1) (fun j h1 h2 => h j (by omega) (by omega))

/-- C4: in `getNextLoanPayment`, if every installment month `k ∈ [1, loanTerm]`
has at least one recorded payment in the same `(year, month)` bucket as its
due date, the result is `{ isPaidOff: true }` no matter what the
remaining-balance arithmetic gives (in the embedding the balance branch and
the bucket branch both return the same paid-off value, the balance branch
being tested first). -/
theorem c4_all_buckets_covered_reports_paid_off (car : Car) (ps : List Payment)
    (now : Int)
    (hla : qTruthy car.loanAmount = true)
    (hmp : qTruthy car.monthlyPayment = true)
    (hpd : zTruthy car.purchaseDate = true)
    (hlt : zTruthy car.loanTerm = true)
    (hcov : ∀ j ∈ List.range (zOrZero car.loanTerm).toNat,
      monthKey (addMonths (zOrZero car.purchaseDate) ((j : Int) + 1)) ∈
        paidKeys ps) :
    getNextLoanPayment car ps now = some .paidOff := by
  unfold getNextLoanPayment
  rw [hla, hmp, hpd, hlt]
  simp only [Bool.and_self, if_true]
  refine congrArg some ?_
  unfold gnlpCore
  dsimp only
  split
  · rfl
  · rw [findFirstUnpaid_eq_none (zOrZero car.purchaseDate)
      (paidKeys (sortByDate ps)) (zOrZero car.loanTerm).toNat 1 ?_]
    intro j h1 h2
    rw [mem_paidKeys_sortByDate]
    obtain ⟨j', rfl⟩ : ∃ j', j = j' + 1 := ⟨j - 1, by omega⟩
    have := hcov j' (List.mem_range.mpr (by omega))
    simpa [Int.ofNat_succ] using this

/-- Witness for C4: the bucket of the only installment is covered by a $1
payment, the projected balance is $999, yet the result is paid-off. -/
theorem c4_witness :
    qTruthy carOneMonth.loanAmount = true ∧
    zTruthy carOneMonth.purchaseDate = true ∧
    (∀ j ∈ List.range (zOrZero carOneMonth.loanTerm).toNat,
      monthKey (addMonths (zOrZero carOneMonth.purchaseDate) ((j : Int) + 1)) ∈
        paidKeys [payTinyFeb]) ∧
    getNextLoanPayment carOneMonth [payTinyFeb] tJan15 = some .paidOff :=
  ⟨by decide, by decide, by decide,
   c4_all_buckets_covered_reports_paid_off carOneMonth [payTinyFeb] tJan15
     (by decide) (by decide) (by decide) (by decide) (by decide)⟩

/-- `Math.round` sends nonnegative numbers to nonnegative integers. -/
theorem jsRound_nonneg {q : ℚ} (h : 0 ≤ q) : 0 ≤ jsRound q := by
  rw [jsRound_eq_floor]
  exact Int.le_floor.mpr (by push_cast; linarith)

/-- Rounding to cents preserves nonnegativity. -/
theorem round2_nonneg {q : ℚ} (h : 0 ≤ q) : 0 ≤ round2 q := by
  unfold round2
  have h1 : (0 : Int) ≤ jsRound (q * 100) :=
    jsRound_nonneg (mul_nonneg h (by norm_num))
  have h2 : (0 : ℚ) ≤ (jsRound (q * 100) : ℚ) := Int.cast_nonneg.mpr h1
  linarith

/-- C5: `getLoanDetails` projects the balance forward to "now" — its reported
`remainingBalance` is `round2 (B + B·rate·monthsSinceLastEvent)` for the
post-loop balance `B` — while `getNextLoanPayment`'s `remainingBalance` is
`round2 B` with no forward accrual; consequently on the standard car with no
payments and one average month elapsed the two operations report 20100
vs 20000. -/
theorem c5_forward_accrual_asymmetry (car : Car) (ps : List Payment)
    (now : Int)
    (hla : 0 ≤ qOrZero car.loanAmount)
    (hir : 0 ≤ qOrZero car.interestRate) :
    (∀ L, getLoanDetails car ps now = some L →
      L.remainingBalance =
        round2 ((gldProject (qOrZero car.loanAmount)
            (qOrZero car.interestRate / 100 / 12)
            (zOrElse car.purchaseDate now) (sortByDate ps)).1 +
          (gldProject (qOrZero car.loanAmount)
            (qOrZero car.interestRate / 100 / 12)
            (zOrElse car.purchaseDate now) (sortByDate ps)).1 *
            (qOrZero car.interestRate / 100 / 12) *
            max 0 (((now - (gldProject (qOrZero car.loanAmount)
              (qOrZero car.interestRate / 100 / 12)
              (zOrElse car.purchaseDate now) (sortByDate ps)).2 : Int) : ℚ) /
              monthMs))) ∧
    (∀ d, getNextLoanPayment car ps now = some (.due d) →
      d.remainingBalance =
        round2 (gnlpProject (qOrZero car.loanAmount)
          (qOrZero car.interestRate / 100 / 12) (zOrZero car.purchaseDate)
          (sortByDate ps)).1) ∧
    ((getLoanDetails carStd [] (tJan15 + 2630016000)).map
        LoanDetails.remainingBalance = some 20100 ∧
      gnlpRemainingBalance
        (getNextLoanPayment carStd [] (tJan15 + 2630016000)) = some 20000) := by
  refine ⟨?_, ?_, by decide, by decide⟩
  · intro L h
    unfold getLoanDetails at h
    split at h
    · have h' : gldCore car ps now = L := Option.some.inj h
      subst h'
      have hB := (gnlpFold_bounds (qOrZero car.interestRate / 100 / 12)
        (sortByDate ps)
        (qOrZero car.loanAmount, zOrElse car.purchaseDate now) hla).1
      have hr : 0 ≤ qOrZero car.interestRate / 100 / 12 := by positivity
      have hrw : (gldCore car ps now).remainingBalance =
          max 0 (round2 ((gldProject (qOrZero car.loanAmount)
            (qOrZero car.interestRate / 100 / 12)
            (zOrElse car.purchaseDate now) (sortByDate ps)).1 +
          (gldProject (qOrZero car.loanAmount)
            (qOrZero car.interestRate / 100 / 12)
            (zOrElse car.purchaseDate now) (sortByDate ps)).1 *
            (qOrZero car.interestRate / 100 / 12) *
            max 0 (((now - (gldProject (qOrZero car.loanAmount)
              (qOrZero car.interestRate / 100 / 12)
              (zOrElse car.purchaseDate now) (sortByDate ps)).2 : Int) : ℚ) /
              monthMs))) := rfl
      rw [hrw]
      refine max_eq_right (round2_nonneg ?_)
      have hacc : 0 ≤ (gldProject (qOrZero car.loanAmount)
          (qOrZero car.interestRate / 100 / 12)
          (zOrElse car.purchaseDate now) (sortByDate ps)).1 *
            (qOrZero car.interestRate / 100 / 12) *
            max 0 (((now - (gldProject (qOrZero car.loanAmount)
              (qOrZero car.interestRate / 100 / 12)
              (zOrElse car.purchaseDate now) (sortByDate ps)).2 : Int) : ℚ) /
              monthMs) :=
        mul_nonneg (mul_nonneg hB hr) (le_max_left 0 _)
      exact add_nonneg hB hacc
    · exact absurd h (by simp)
  · intro d h
    unfold getNextLoanPayment at h
    split at h
    · have h' : gnlpCore car ps now = .due d := Option.some.inj h
      unfold gnlpCore at h'
      dsimp only at h'
      split at h'
      · exact absurd h' (by simp)
      · split at h'
        · exact absurd h' (by simp)
        · injection h' with h2
          subst h2
          rfl
    · exact absurd h (by simp)

/-- Witness for C5 at the standard fixture with no payments. -/
theorem c5_witness :
    (0 : ℚ) ≤ qOrZero carStd.loanAmount ∧
    (0 : ℚ) ≤ qOrZero carStd.interestRate ∧
    (∀ L, getLoanDetails carStd [] (tJan15 + 2630016000) = some L →
      L.remainingBalance =
        round2 ((gldProject (qOrZero carStd.loanAmount)
            (qOrZero carStd.interestRate / 100 / 12)
            (zOrElse carStd.purchaseDate (tJan15 + 2630016000))
            (sortByDate [])).1 +
          (gldProject (qOrZero carStd.loanAmount)
            (qOrZero carStd.interestRate / 100 / 12)
            (zOrElse carStd.purchaseDate (tJan15 + 2630016000))
            (sortByDate [])).1 *
            (qOrZero carStd.interestRate / 100 / 12) *
            max 0 ((((tJan15 + 2630016000) -
              (gldProject (qOrZero carStd.loanAmount)
                (qOrZero carStd.interestRate / 100 / 12)
                (zOrElse carStd.purchaseDate (tJan15 + 2630016000))
                (sortByDate [])).2 : Int) : ℚ) / monthMs))) :=
  ⟨by decide, by decide,
   (c5_forward_accrual_asymmetry carStd [] (tJan15 + 2630016000)
     (by decide) (by decide)).1⟩

/-- The in-period payment sum is unchanged by the handler-internal sort. -/
theorem paidInPeriod_sortByDate (ps : List Payment) (due : Int) :
    paidInPeriod (sortByDate ps) due = paidInPeriod ps due := by
  unfold paidInPeriod
  exact (((List.perm_insertionSort dateLE ps).filter _).map _).sum_eq

/-- Choosing the branch before or after subtracting gives the same capped
amount. -/
theorem ite_max_sub (a b s : ℚ) :
    (if a < b then max 0 (a - s) else max 0 (b - s)) =
      max 0 ((if a < b then a else b) - s) := by
  split <;> rfl

/-- C6: when `getNextLoanPayment` finds a next-due installment, its
`amountDue` is `round2 (max 0 (effectivePayment − paidThisPeriod))` where
`paidThisPeriod` sums the recorded payments in
`(dueDate − 1 calendar month, dueDate]` and `effectivePayment` is
`remainingBalance` when `remainingBalance < monthlyPayment`, else
`monthlyPayment`; the reported `paidThisPeriod` is that sum rounded to
cents. -/
theorem c6_amount_due_caps_final_payment (car : Car) (ps : List Payment)
    (now : Int) (d : GnlpDue)
    (h : getNextLoanPayment car ps now = some (.due d)) :
    d.amountDue =
      round2 (max 0 ((if d.remainingBalance < d.monthlyPayment then
          d.remainingBalance else d.monthlyPayment) -
        paidInPeriod ps d.nextDueDate)) ∧
    d.paidThisPeriod = round2 (paidInPeriod ps d.nextDueDate) := by
  unfold getNextLoanPayment at h
  split at h
  · have h' : gnlpCore car ps now = .due d := Option.some.inj h
    unfold gnlpCore at h'
    dsimp only at h'
    split at h'
    · exact absurd h' (by simp)
    · cases hfind : findFirstUnpaid (zOrZero car.purchaseDate)
          (paidKeys (sortByDate ps)) 1 (zOrZero car.loanTerm).toNat with
      | none => rw [hfind] at h'; exact absurd h' (by simp)
      | some kd =>
        obtain ⟨k, due⟩ := kd
        rw [hfind] at h'
        dsimp only at h'
        injection h' with h2
        subst h2
        constructor
        · show round2 (if round2 (gnlpProject (qOrZero car.loanAmount)
              (qOrZero car.interestRate / 100 / 12) (zOrZero car.purchaseDate)
              (sortByDate ps)).1 < qOrZero car.monthlyPayment then
                max 0 (round2 (gnlpProject (qOrZero car.loanAmount)
                  (qOrZero car.interestRate / 100 / 12)
                  (zOrZero car.purchaseDate) (sortByDate ps)).1 -
                  paidInPeriod (sortByDate ps) due)
              else
                max 0 (qOrZero car.monthlyPayment -
                  paidInPeriod (sortByDate ps) due)) = _
          rw [paidInPeriod_sortByDate, ite_max_sub]
        · show round2 (paidInPeriod (sortByDate ps) due) = _
          rw [paidInPeriod_sortByDate]
  · exact absurd h (by simp)

/-- Witness for C6 at the standard fixture: the result of
`getNextLoanPayment` is installment 2 due 2020-03-15 with a full $400 due. -/
theorem c6_witness :
    getNextLoanPayment carStd [payFeb] (tJan15 + 40 * 86400000) =
      some (.due
        { nextDueDate := 1584230400000
          monthlyPayment := 400
          amountDue := 400
          paidThisPeriod := 0
          remainingBalance := 492546 / 25
          paymentNumber := 2
          isOverdue := false }) ∧
    ({ nextDueDate := 1584230400000
       monthlyPayment := 400
       amountDue := 400
       paidThisPeriod := 0
       remainingBalance := 492546 / 25
       paymentNumber := 2
       isOverdue := false } : GnlpDue).amountDue =
      round2 (max 0 ((if (492546 / 25 : ℚ) < 400 then (492546 / 25 : ℚ)
          else 400) -
        paidInPeriod [payFeb] 1584230400000)) :=
  ⟨by decide,
   (c6_amount_due_caps_final_payment carStd [payFeb] (tJan15 + 40 * 86400000)
     { nextDueDate := 1584230400000
       monthlyPayment := 400
       amountDue := 400
       paidThisPeriod := 0
       remainingBalance := 492546 / 25
       paymentNumber := 2
       isOverdue := false } (by decide)).1⟩

/-- The next-due search returns exactly the first offset whose month bucket
is uncovered. -/
theorem findFirstUnpaid_eq_some (purchase : Int) (keys : List (Int × Int)) :
    ∀ (n k j : Nat), k ≤ j → j < k + n →
      (∀ i : Nat, k ≤ i → i < j →
        monthKey (addMonths purchase (i : Int)) ∈ keys) →
      monthKey (addMonths purchase (j : Int)) ∉ keys →
      findFirstUnpaid purchase keys k n =
        some (j, addMonths purchase (j : Int)) := by
  intro n
  induction n with
  | zero => intro k j h1 h2 _ _; omega
  | succ n ih =>
    intro k j h1 h2 hcov hj
    unfold findFirstUnpaid
    simp only []
    by_cases hk : monthKey (addMonths purchase (k : Int)) ∈ keys
    · rw [if_pos hk]
      have hne : k ≠ j := by rintro rfl; exact hj hk
      exact ih (k + 1) j (by omega) (by omega)
        (fun i hi1 hi2 => hcov i (by omega) hi2) hj
    · rw [if_neg hk]
      have hkj : k = j := by
        by_contra hne
        exact hk (hcov k le_rfl (by omega))
      subst hkj
      rfl

/-- C7: a payment counts toward installment `k` exactly when its
`(year, month)` equals the `(year, month)` of installment `k`'s due date —
the bucket check is a pure `(year, month)` membership, blind to day-of-month
and to chronological order — and for a 12-month loan whose first three
installment buckets are covered while the fourth is not (and whose projected
balance still exceeds a cent), `getNextLoanPayment` reports installment 4 as
next due. -/
theorem c7_buckets_ignore_chronology (car : Car) (ps : List Payment)
    (now : Int)
    (hla : qTruthy car.loanAmount = true)
    (hmp : qTruthy car.monthlyPayment = true)
    (hpd : zTruthy car.purchaseDate = true)
    (hlt : zTruthy car.loanTerm = true)
    (hlt12 : car.loanTerm = some 12)
    (h123 : ∀ j ∈ ([1, 2, 3] : List Int),
      monthKey (addMonths (zOrZero car.purchaseDate) j) ∈ paidKeys ps)
    (h4 : monthKey (addMonths (zOrZero car.purchaseDate) 4) ∉ paidKeys ps)
    (hbal : 1 / 100 < round2 (gnlpProject (qOrZero car.loanAmount)
      (qOrZero car.interestRate / 100 / 12) (zOrZero car.purchaseDate)
      (sortByDate ps)).1) :
    (∀ (qs : List Payment) (key : Int × Int),
      key ∈ paidKeys qs ↔ ∃ p ∈ qs, monthKey p.date = key) ∧
    gnlpPaymentNumber (getNextLoanPayment car ps now) = some 4 := by
  constructor
  · intro qs key
    simp [paidKeys, List.mem_map]
  · have hfind : findFirstUnpaid (zOrZero car.purchaseDate)
        (paidKeys (sortByDate ps)) 1 (zOrZero car.loanTerm).toNat =
        some (4, addMonths (zOrZero car.purchaseDate) 4) := by
      rw [hlt12]
      show findFirstUnpaid _ _ 1 12 = _
      have h4' : monthKey (addMonths (zOrZero car.purchaseDate) ((4 : Nat) : Int)) ∉
          paidKeys (sortByDate ps) := by
        rw [mem_paidKeys_sortByDate]; exact_mod_cast h4
      have := findFirstUnpaid_eq_some (zOrZero car.purchaseDate)
        (paidKeys (sortByDate ps)) 12 1 4 (by omega) (by omega)
        (fun i hi1 hi2 => by
          rw [mem_paidKeys_sortByDate]
          have : (i : Int) ∈ ([1, 2, 3] : List Int) := by
            interval_cases i <;> decide
          exact h123 (i : Int) this)
        h4'
      exact_mod_cast this
    unfold getNextLoanPayment
    rw [hla, hmp, hpd, hlt]
    simp only [Bool.and_self, if_true]
    unfold gnlpCore
    dsimp only
    rw [if_neg (not_le.mpr hbal), hfind]
    rfl

/-- Witness for C7: with the March payment recorded first, installment 4 is
still the one reported next due. -/
theorem c7_witness :
    carTwelve.loanTerm = some 12 ∧
    (∀ j ∈ ([1, 2, 3] : List Int),
      monthKey (addMonths (zOrZero carTwelve.purchaseDate) j) ∈
        paidKeys psScrambled) ∧
    monthKey (addMonths (zOrZero carTwelve.purchaseDate) 4) ∉
      paidKeys psScrambled ∧
    gnlpPaymentNumber (getNextLoanPayment carTwelve psScrambled tJan15) =
      some 4 :=
  ⟨rfl, by decide, by decide,
   (c7_buckets_ignore_chronology carTwelve psScrambled tJan15 (by decide)
     (by decide) (by decide) (by decide) rfl (by decide) (by decide)
     (by decide)).2⟩

/-- C8 counterexample: on the standard car the balance before any payment is
$20000; paying exactly that amount one average month later leaves a reported
balance of $100 (the accrued interest), and the operation does not report the
loan paid off — refuting the claim that a payment equal to the full remaining
balance always zeroes the balance. -/
theorem c8_counterexample :
    payFullBalance.amount =
      (gnlpProject (qOrZero carStd.loanAmount)
        (qOrZero carStd.interestRate / 100 / 12) (zOrZero carStd.purchaseDate)
        (sortByDate [])).1 ∧
    gnlpRemainingBalance
      (getNextLoanPayment carStd [payFullBalance] (tJan15 + 2 * 2630016000)) =
        some 100 ∧
    getNextLoanPayment carStd [payFullBalance] (tJan15 + 2 * 2630016000) ≠
      some .paidOff := by
  refine ⟨by decide, by decide, by decide⟩

/-- One projection step zeroes the balance when the payment covers the
balance plus the interest accrued on it. -/
theorem gnlpStep_full_payoff (r bal : ℚ) (last : Int) (p : Payment)
    (hbal : 0 ≤ bal)
    (hamt : p.amount =
      bal * (1 + r * max 0 (((p.date - last : Int) : ℚ) / monthMs))) :
    (gnlpStep r (bal, last) p).1 = 0 := by
  unfold gnlpStep
  dsimp only
  set me := max 0 (((p.date - last : Int) : ℚ) / monthMs) with hme
  have hint : bal * r * me ≤ p.amount := by
    rw [hamt]; nlinarith
  have h3 : bal * (1 + r * me) - bal * r * me = bal := by ring
  rw [min_eq_right hint, hamt, h3, max_eq_right hbal]
  simp

/-- C8 (amended): for every projector state reached from a truthy car and an
already-date-sorted payment history, one additional, latest-dated payment
equal to the remaining balance *plus the interest accrued on it since the
last event* drives the projected balance to exactly 0, and
`getNextLoanPayment` then reports the loan paid off. (A payment equal to the
bare remaining balance does so only when no interest has accrued — see the
counterexample.) -/
theorem c8_payoff_with_accrued_interest (car : Car) (ps : List Payment)
    (p : Payment) (now : Int)
    (hla : qTruthy car.loanAmount = true)
    (hmp : qTruthy car.monthlyPayment = true)
    (hpd : zTruthy car.purchaseDate = true)
    (hlt : zTruthy car.loanTerm = true)
    (hla0 : 0 ≤ qOrZero car.loanAmount)
    (hsorted : List.Sorted dateLE ps)
    (hlast : ∀ q ∈ ps, q.date ≤ p.date)
    (hamt : p.amount =
      (gnlpProject (qOrZero car.loanAmount)
          (qOrZero car.interestRate / 100 / 12) (zOrZero car.purchaseDate)
          ps).1 *
        (1 + qOrZero car.interestRate / 100 / 12 *
          max 0 (((p.date - (gnlpProject (qOrZero car.loanAmount)
            (qOrZero car.interestRate / 100 / 12) (zOrZero car.purchaseDate)
            ps).2 : Int) : ℚ) / monthMs))) :
    (gnlpProject (qOrZero car.loanAmount)
        (qOrZero car.interestRate / 100 / 12) (zOrZero car.purchaseDate)
        (ps ++ [p])).1 = 0 ∧
    getNextLoanPayment car (ps ++ [p]) now = some .paidOff := by
  have hsortedA : List.Sorted dateLE (ps ++ [p]) := by
    rw [List.Sorted, List.pairwise_append]
    refine ⟨hsorted, List.sorted_singleton p, ?_⟩
    intro a ha b hb
    rw [List.mem_singleton] at hb
    subst hb
    exact hlast a ha
  have hsort_eq : sortByDate (ps ++ [p]) = ps ++ [p] :=
    List.Sorted.insertionSort_eq hsortedA
  have hB := (gnlpFold_bounds (qOrZero car.interestRate / 100 / 12) ps
    (qOrZero car.loanAmount, zOrZero car.purchaseDate) hla0).1
  have hzero : (gnlpProject (qOrZero car.loanAmount)
      (qOrZero car.interestRate / 100 / 12) (zOrZero car.purchaseDate)
      (ps ++ [p])).1 = 0 := by
    unfold gnlpProject
    rw [List.foldl_append, List.foldl_cons, List.foldl_nil]
    exact gnlpStep_full_payoff (qOrZero car.interestRate / 100 / 12) _ _ p hB hamt
  refine ⟨hzero, ?_⟩
  unfold getNextLoanPayment
  rw [hla, hmp, hpd, hlt]
  simp only [Bool.and_self, if_true]
  refine congrArg some ?_
  unfold gnlpCore
  dsimp only
  rw [hsort_eq, hzero]
  rw [if_pos (by decide : round2 0 ≤ 1 / 100)]

/-- Witness for the amended C8 on the standard car with no prior payments. -/
theorem c8_witness :
    qTruthy carStd.loanAmount = true ∧
    List.Sorted dateLE [] ∧
    payFullPlusInterest.amount =
      (gnlpProject (qOrZero carStd.loanAmount)
          (qOrZero carStd.interestRate / 100 / 12) (zOrZero carStd.purchaseDate)
          []).1 *
        (1 + qOrZero carStd.interestRate / 100 / 12 *
          max 0 (((payFullPlusInterest.date -
            (gnlpProject (qOrZero carStd.loanAmount)
              (qOrZero carStd.interestRate / 100 / 12)
              (zOrZero carStd.purchaseDate) []).2 : Int) : ℚ) / monthMs)) ∧
    getNextLoanPayment carStd ([] ++ [payFullPlusInterest]) tJan15 =
      some .paidOff :=
  ⟨by decide, List.sorted_nil, by decide,
   (c8_payoff_with_accrued_interest carStd [] payFullPlusInterest tJan15
     (by decide) (by decide) (by decide) (by decide) (by decide)
     List.sorted_nil (by simp) (by decide)).2⟩

/-- C9 counterexample: two permutations of the same two equal-dated payments
give ending balances 900 and 920 in both handlers — the ending balance is
not a function of the payment set alone. The stable sort preserves the input
order of equal dates, and the interest-first split makes that order
observable. -/
theorem c9_counterexample :
    ([p30, p100] : List Payment).Perm [p100, p30] ∧
    gnlpRemainingBalance
      (getNextLoanPayment carHighRate [p30, p100] (tJan15 + 2630016000)) =
        some 900 ∧
    gnlpRemainingBalance
      (getNextLoanPayment carHighRate [p100, p30] (tJan15 + 2630016000)) =
        some 920 ∧
    (getLoanDetails carHighRate [p30, p100] (tJan15 + 2630016000)).map
        LoanDetails.remainingBalance = some 900 ∧
    (getLoanDetails carHighRate [p100, p30] (tJan15 + 2630016000)).map
        LoanDetails.remainingBalance = some 920 := by
  refine ⟨by decide, by decide, by decide, by decide, by decide⟩

/-- C9 (amended): when no two payments share a date, the ending state — in
fact the entire result of both handlers — depends only on the set of
payments: any two permutations of the payment list give identical results,
because sorting by the (now unambiguous) date order normalises them to the
same list. -/
theorem c9_permutation_invariant_distinct_dates (car : Car)
    (ps₁ ps₂ : List Payment) (now : Int) (hperm : ps₁.Perm ps₂)
    (hdist : ps₁.Pairwise (fun a b => a.date ≠ b.date)) :
    getNextLoanPayment car ps₁ now = getNextLoanPayment car ps₂ now ∧
    getLoanDetails car ps₁ now = getLoanDetails car ps₂ now := by
  have hsortperm : (sortByDate ps₁).Perm (sortByDate ps₂) :=
    (List.perm_insertionSort dateLE ps₁).trans
      (hperm.trans (List.perm_insertionSort dateLE ps₂).symm)
  have hd₁ : (sortByDate ps₁).Pairwise (fun a b => a.date ≠ b.date) :=
    ((List.perm_insertionSort dateLE ps₁).pairwise_iff
      (fun h => Ne.symm h)).mpr hdist
  have hd₂ : (sortByDate ps₂).Pairwise (fun a b => a.date ≠ b.date) :=
    (hsortperm.pairwise_iff (fun h => Ne.symm h)).mp hd₁
  have hs₁ : (sortByDate ps₁).Pairwise dateLT :=
    ((List.sorted_insertionSort dateLE ps₁).and hd₁).imp
      (fun h => lt_of_le_of_ne h.1 h.2)
  have hs₂ : (sortByDate ps₂).Pairwise dateLT :=
    ((List.sorted_insertionSort dateLE ps₂).and hd₂).imp
      (fun h => lt_of_le_of_ne h.1 h.2)
  have heq : sortByDate ps₁ = sortByDate ps₂ :=
    List.eq_of_perm_of_sorted hsortperm hs₁ hs₂
  constructor
  · unfold getNextLoanPayment
    have : gnlpCore car ps₁ now = gnlpCore car ps₂ now := by
      unfold gnlpCore; rw [heq]
    rw [this]
  · unfold getLoanDetails
    have : gldCore car ps₁ now = gldCore car ps₂ now := by
      unfold gldCore; rw [heq]
    rw [this]

/-- Witness for the amended C9: swapping two distinctly-dated payments does
not change either handler's result. -/
theorem c9_witness :
    ([payFeb, payTinyFeb] : List Payment).Perm [payTinyFeb, payFeb] ∧
    ([payFeb, payTinyFeb] : List Payment).Pairwise
      (fun a b => a.date ≠ b.date) ∧
    (getNextLoanPayment carStd [payFeb, payTinyFeb] tJan15 =
      getNextLoanPayment carStd [payTinyFeb, payFeb] tJan15 ∧
    getLoanDetails carStd [payFeb, payTinyFeb] tJan15 =
      getLoanDetails carStd [payTinyFeb, payFeb] tJan15) :=
  ⟨by decide, by decide,
   c9_permutation_invariant_distinct_dates carStd [payFeb, payTinyFeb]
     [payTinyFeb, payFeb] tJan15 (by decide) (by decide)⟩

/-- C10: buying on 2023-01-31, installments 1 and 2 both get the March 2023
bucket (`setMonth` rolls Feb 31 over to Mar 3 while installment 2 is
Mar 31), so the single March payment satisfies both and the next-due search
skips from one recorded payment straight to installment 3. -/
theorem c10_day31_purchase_collides_buckets :
    dayOfMonth tJan31 = 31 ∧
    (1 : Int) ≠ 2 ∧
    monthKey (addMonths tJan31 1) = monthKey (addMonths tJan31 2) ∧
    monthKey payMar2023.date = monthKey (addMonths tJan31 1) ∧
    gnlpPaymentNumber (getNextLoanPayment carRollover [payMar2023] tJan31) =
      some 3 := by
  refine ⟨by decide, by decide, by decide, by decide, by decide⟩

end LoanModel

end CarApp
